import Mathlib

/-!
Verification development for the ansible-runner-service repository.

This file shallowly embeds the parts of the source that the verified
properties talk about:

* `job_store.py` — the two-tier job store (Redis ephemeral tier plus
  relational durable tier), its `create_job`, `update_status`, `get_job`
  and `_save_job` / `_deserialize_job` serialization layer;
* `repository.py` — the durable `JobRepository` operations;
* `main.py` — the `GET /api/v1/jobs/{id}` endpoint read path,
  `recover_stale_jobs`, and `_build_source_config`;
* `worker.py` — `execute_job` dispatch and `_execute_git_playbook`;
* `git_config.py` — provider records and `validate_repo_url`;
* `git_service.py` — `_build_username_url`, the clone / install
  child-process invocations, and `resolve_fqcn`;
* `queue.py` — `enqueue_job` over the rq work queue.

Modelling conventions: machine strings stay `String`; datetimes are
`Nat` instants rendered to strings by an injective tagged encoding
(standing in for `isoformat` / `fromisoformat`, which are faithful in
the aspects used: the encoding of an instant is never the empty string,
and decoding the empty string fails); JSON-serialized values stored in
the Redis hash are a tagged sum (`RVal`) standing in for
`json.dumps` / `json.loads` (faithful in the aspects used: the encoding
of a dict is not the empty string and `json.loads` of the empty string
raises); fallible Python code returns `Except` / `Option`; a raised
exception from the durable layer is injected by a `dbOk : Bool`
parameter.
-/

/-- `JobStatus` from `job_store.py`. -/
inductive JobStatus where
  | pending
  | running
  | successful
  | failed
deriving DecidableEq, Repr

/-- `JobStatus.value` (the `str` value of the enum member). -/
def JobStatus.value : JobStatus → String
  | .pending => "pending"
  | .running => "running"
  | .successful => "successful"
  | .failed => "failed"

/-- `JobStatus(s)` construction from a string; `none` models the
`ValueError` raised on an unknown value. -/
def JobStatus.ofString : String → Option JobStatus
  | "pending" => some .pending
  | "running" => some .running
  | "successful" => some .successful
  | "failed" => some .failed
  | _ => none

/-- `JobResult` dataclass from `job_store.py`.  `stats` is a
string-keyed mapping whose values are kept as strings. -/
structure JobResult where
  rc : Int
  stdout : String
  stats : List (String × String)
deriving DecidableEq, Repr

/-- `Job` dataclass from `job_store.py`.  Datetimes are `Nat` instants;
`extra_vars` is an association list. -/
structure Job where
  job_id : String
  status : JobStatus
  playbook : String
  extra_vars : List (String × String)
  inventory : String
  created_at : Nat
  started_at : Option Nat := none
  finished_at : Option Nat := none
  result : Option JobResult := none
  error : Option String := none
deriving DecidableEq, Repr

/-- Tagged stand-in for the strings stored in a Redis hash field: a
plain string, a JSON-serialized dict (`json.dumps` of a mapping), or a
JSON-serialized `JobResult` (`json.dumps(asdict(result))`). -/
inductive RVal where
  | str : String → RVal
  | jdict : List (String × String) → RVal
  | jres : JobResult → RVal
deriving DecidableEq, Repr

/-- `json.loads` on a stored hash value, expecting a dict.  Decoding
the plain string `""` (a missing field) raises, modelled as `none`. -/
def jsonLoadsDict : RVal → Option (List (String × String))
  | .jdict m => some m
  | _ => none

/-- `json.loads` on a stored hash value, expecting a serialized
`JobResult`. -/
def jsonLoadsResult : RVal → Option JobResult
  | .jres r => some r
  | _ => none

/-- The plain-string reading of a stored hash value (`get_str` in
`_deserialize_job` returns the raw decoded string). -/
def RVal.asStr : RVal → String
  | .str v => v
  | .jdict _ => "jdict"
  | .jres _ => "jres"

/-- `datetime.isoformat` stand-in: an injective rendering of an instant
that is never the empty string. -/
def isoEncode (t : Nat) : String := "t:" ++ toString t

/-- Decimal value of one digit character. -/
def digitVal (c : Char) : Option Nat :=
  if 48 ≤ c.toNat ∧ c.toNat ≤ 57 then some (c.toNat - 48) else none

/-- Parse a non-empty digit string. -/
def decodeNatAux : List Char → Nat → Option Nat
  | [], acc => some acc
  | c :: rest, acc =>
      match digitVal c with
      | some d => decodeNatAux rest (acc * 10 + d)
      | none => none

/-- Parse a list of characters as a decimal number; empty fails. -/
def decodeNat : List Char → Option Nat
  | [] => none
  | l => decodeNatAux l 0

/-- `datetime.fromisoformat` stand-in: decodes only strings produced by
`isoEncode`; in particular it fails on the empty string, as
`fromisoformat("")` raises. -/
def isoDecode (s : String) : Option Nat :=
  match s.data with
  | 't' :: ':' :: rest => decodeNat rest
  | _ => none

/-- A Redis key's value: the hash fields plus the key's TTL.  A key
created by a bare `HSET` carries no TTL; only `EXPIRE` sets one. -/
structure RedisEntry where
  fields : List (String × RVal)
  ttl : Option Nat := none
deriving DecidableEq, Repr

/-- The ephemeral tier: a keyed mapping from key to entry. -/
def RedisState := List (String × RedisEntry)

instance : DecidableEq RedisState := by
  unfold RedisState
  infer_instance

/-- Set one field of an association list, overwriting an existing
binding for the same key. -/
def setField (h : List (String × RVal)) (k : String) (v : RVal) :
    List (String × RVal) :=
  match h with
  | [] => [(k, v)]
  | (k0, v0) :: rest =>
      if k0 = k then (k, v) :: rest else (k0, v0) :: setField rest k v

/-- Merge a field mapping into a hash, later writes overwriting
earlier bindings (the semantics of `HSET key mapping=...`). -/
def hsetFields (h : List (String × RVal)) (m : List (String × RVal)) :
    List (String × RVal) :=
  m.foldl (fun acc kv => setField acc kv.1 kv.2) h

/-- Look up a key's entry in the ephemeral tier. -/
def redisFind (r : RedisState) (k : String) : Option RedisEntry :=
  match r with
  | [] => none
  | (k0, e) :: rest => if k0 = k then some e else redisFind rest k

/-- Replace or insert a key's entry. -/
def redisSet (r : RedisState) (k : String) (e : RedisEntry) : RedisState :=
  match r with
  | [] => [(k, e)]
  | (k0, e0) :: rest =>
      if k0 = k then (k, e) :: rest else (k0, e0) :: redisSet rest k e

/-- `HSET key mapping=m`: merge into the existing hash, or create a
fresh key with no TTL. -/
def redisHset (r : RedisState) (k : String) (m : List (String × RVal)) :
    RedisState :=
  match redisFind r k with
  | some e => redisSet r k { e with fields := hsetFields e.fields m }
  | none => redisSet r k { fields := hsetFields [] m, ttl := none }

/-- `EXPIRE key t`: set the TTL of an existing key; no-op when the key
is absent. -/
def redisExpire (r : RedisState) (k : String) (t : Nat) : RedisState :=
  match redisFind r k with
  | some e => redisSet r k { e with ttl := some t }
  | none => r

/-- `DEL key`. -/
def redisDelete (r : RedisState) (k : String) : RedisState :=
  match r with
  | [] => []
  | (k0, e0) :: rest =>
      if k0 = k then redisDelete rest k else (k0, e0) :: redisDelete rest k

/-- `HGETALL key`: the hash fields, or `[]` when the key is absent
(Redis returns an empty mapping for a missing key, which is what
`if not data` tests in `get_job`). -/
def redisHgetall (r : RedisState) (k : String) : List (String × RVal) :=
  match redisFind r k with
  | some e => e.fields
  | none => []

/-- `EXISTS key ≠ 0`. -/
def redisExists (r : RedisState) (k : String) : Bool :=
  match redisFind r k with
  | some _ => true
  | none => false

/-- A row of the durable `jobs` table (`models.py` / `repository.py`). -/
structure DbJob where
  id : String
  status : String
  playbook : String
  extra_vars : List (String × String)
  inventory : String
  created_at : Nat
  started_at : Option Nat := none
  finished_at : Option Nat := none
  result_rc : Option Int := none
  result_stdout : Option String := none
  result_stats : Option (List (String × String)) := none
  error : Option String := none
deriving DecidableEq, Repr

/-- `JobRepository.create` (`repository.py`): insert a pending row. -/
def repoCreate (db : List DbJob) (job_id playbook : String)
    (extra_vars : List (String × String)) (inventory : String)
    (created_at : Nat) : List DbJob :=
  db ++ [{ id := job_id, status := "pending", playbook := playbook,
           extra_vars := extra_vars, inventory := inventory,
           created_at := created_at }]

/-- `JobRepository.get` (`repository.py`): primary-key lookup. -/
def repoGet (db : List DbJob) (job_id : String) : Option DbJob :=
  db.find? (fun j => j.id = job_id)

/-- The field updates of `JobRepository.update_status`
(`repository.py`): set `status`, and each optional field only when the
argument is not `None`. -/
def dbApplyUpdate (j : DbJob) (status : String)
    (started_at finished_at : Option Nat) (result_rc : Option Int)
    (result_stdout : Option String)
    (result_stats : Option (List (String × String)))
    (error : Option String) : DbJob :=
  { j with
    status := status
    started_at := (started_at.map some).getD j.started_at
    finished_at := (finished_at.map some).getD j.finished_at
    result_rc := (result_rc.map some).getD j.result_rc
    result_stdout := (result_stdout.map some).getD j.result_stdout
    result_stats := (result_stats.map some).getD j.result_stats
    error := (error.map some).getD j.error }

/-- `JobRepository.update_status` (`repository.py`): update the row
with the given primary key; the returned `Bool` is whether a row was
found. -/
def repoUpdateStatus (db : List DbJob) (job_id status : String)
    (started_at finished_at : Option Nat) (result_rc : Option Int)
    (result_stdout : Option String)
    (result_stats : Option (List (String × String)))
    (error : Option String) : Bool × List DbJob :=
  match repoGet db job_id with
  | none => (false, db)
  | some _ =>
      (true,
       db.map (fun j =>
         if j.id = job_id then
           dbApplyUpdate j status started_at finished_at result_rc
             result_stdout result_stats error
         else j))

/-- The combined state of the two tiers wrapped by `JobStore`. -/
structure StoreState where
  redis : RedisState
  db : List DbJob
deriving DecidableEq

/-- `JobStore._job_key`. -/
def jobKey (job_id : String) : String := "job:" ++ job_id

/-- The hash mapping written by `JobStore._save_job`: every Job field,
string-encoded, with empty strings for absent optionals. -/
def saveJobFields (job : Job) : List (String × RVal) :=
  [("job_id", .str job.job_id),
   ("status", .str job.status.value),
   ("playbook", .str job.playbook),
   ("extra_vars", .jdict job.extra_vars),
   ("inventory", .str job.inventory),
   ("created_at", .str (isoEncode job.created_at)),
   ("started_at", .str ((job.started_at.map isoEncode).getD "")),
   ("finished_at", .str ((job.finished_at.map isoEncode).getD "")),
   ("result", (job.result.map RVal.jres).getD (.str "")),
   ("error", .str (job.error.getD ""))]

/-- `JobStore._save_job`: `HSET` the full record, then `EXPIRE` it with
the store's TTL. -/
def saveJob (r : RedisState) (ttl : Nat) (job : Job) : RedisState :=
  redisExpire (redisHset r (jobKey job.job_id) (saveJobFields job))
    (jobKey job.job_id) ttl

/-- `get_str` inside `JobStore._deserialize_job`: a missing field reads
as the empty string. -/
def getStr (h : List (String × RVal)) (k : String) : String :=
  ((h.lookup k).getD (.str "")).asStr

/-- Raw lookup of a hash field, defaulting to the empty plain string. -/
def getRVal (h : List (String × RVal)) (k : String) : RVal :=
  (h.lookup k).getD (.str "")

/-- `JobStore._deserialize_job`: rebuild a `Job` from the hash; any
parse failure (`JobStatus(...)`, `json.loads`, `fromisoformat`) raises,
modelled as `none`.  Field parses are sequenced in the source's
evaluation order: `result` first, then the `Job(...)` keyword
arguments. -/
def deserializeJob (h : List (String × RVal)) : Option Job := do
  let result ←
    match getRVal h "result" with
    | .str "" => some none
    | v => (jsonLoadsResult v).map some
  let status ← JobStatus.ofString (getStr h "status")
  let extra_vars ← jsonLoadsDict (getRVal h "extra_vars")
  let created_at ← isoDecode (getStr h "created_at")
  let started_at ←
    match getStr h "started_at" with
    | "" => some none
    | s => (isoDecode s).map some
  let finished_at ←
    match getStr h "finished_at" with
    | "" => some none
    | s => (isoDecode s).map some
  some
    { job_id := getStr h "job_id"
      status := status
      playbook := getStr h "playbook"
      extra_vars := extra_vars
      inventory := getStr h "inventory"
      created_at := created_at
      started_at := started_at
      finished_at := finished_at
      result := result
      error := (if getStr h "error" = "" then none else some (getStr h "error")) }

/-- `JobStore.create_job` (`job_store.py` lines 57-83) with a
repository attached.  The fresh UUID and `datetime.now` are passed in
as `job_id` / `created_at`; `dbOk = false` injects an exception raised
by `repository.create`.  The source saves to Redis first and performs
no rollback when the durable write raises. -/
def JobStore.create_job (st : StoreState) (ttl : Nat) (dbOk : Bool)
    (job_id : String) (playbook : String)
    (extra_vars : List (String × String)) (inventory : String)
    (created_at : Nat) : Except String Job × StoreState :=
  let job : Job :=
    { job_id := job_id, status := .pending, playbook := playbook,
      extra_vars := extra_vars, inventory := inventory,
      created_at := created_at }
  let r1 := saveJob st.redis ttl job
  if dbOk then
    (.ok job,
     { redis := r1,
       db := repoCreate st.db job_id playbook extra_vars inventory
         created_at })
  else
    (.error "DB connection failed", { redis := r1, db := st.db })

/-- The `updates` mapping built by `JobStore.update_status`: always
`status`, plus each optional field when present (Python truthiness of
a datetime / dataclass / non-empty string). -/
def updateFields (status : JobStatus) (started_at finished_at : Option Nat)
    (result : Option JobResult) (error : Option String) :
    List (String × RVal) :=
  [("status", RVal.str status.value)]
    ++ (match started_at with
        | some t => [("started_at", RVal.str (isoEncode t))]
        | none => [])
    ++ (match finished_at with
        | some t => [("finished_at", RVal.str (isoEncode t))]
        | none => [])
    ++ (match result with
        | some r => [("result", RVal.jres r)]
        | none => [])
    ++ (match error with
        | some e => if e = "" then [] else [("error", RVal.str e)]
        | none => [])

/-- `JobStore.update_status` (`job_store.py` lines 91-122) with a
repository attached.  The source writes the Redis hash first
(`self.redis.hset`) and only then writes through to the durable tier;
`dbOk = false` injects an exception raised by
`repository.update_status`, which propagates after the Redis write. -/
def JobStore.update_status (st : StoreState) (dbOk : Bool)
    (job_id : String) (status : JobStatus)
    (started_at finished_at : Option Nat) (result : Option JobResult)
    (error : Option String) : Except String Unit × StoreState :=
  let r1 := redisHset st.redis (jobKey job_id)
    (updateFields status started_at finished_at result error)
  if dbOk then
    (.ok (),
     { redis := r1,
       db := (repoUpdateStatus st.db job_id status.value started_at
         finished_at (result.map (·.rc)) (result.map (·.stdout))
         (result.map (·.stats)) error).2 })
  else
    (.error "DB connection failed", { redis := r1, db := st.db })

/-- `JobStore.get_job` (`job_store.py` lines 85-89): read the hash; an
absent key (empty mapping) yields `none`; a present hash is
deserialized, and a deserialization failure raises (`Except.error`). -/
def JobStore.get_job (r : RedisState) (job_id : String) :
    Except Unit (Option Job) :=
  let data := redisHgetall r (jobKey job_id)
  if data = [] then .ok none
  else
    match deserializeJob data with
    | some j => .ok (some j)
    | none => .error ()

/-- `JobDetail` response schema (`schemas.py`), with timestamps already
rendered to strings. -/
structure JobDetail where
  job_id : String
  status : String
  playbook : String
  created_at : String
  started_at : Option String := none
  finished_at : Option String := none
  result : Option JobResult := none
  error : Option String := none
deriving DecidableEq, Repr

/-- The `JobDetail` built by `main.get_job` from an ephemeral-tier
`Job`. -/
def detailOfJob (j : Job) : JobDetail :=
  { job_id := j.job_id, status := j.status.value, playbook := j.playbook,
    created_at := isoEncode j.created_at,
    started_at := j.started_at.map isoEncode,
    finished_at := j.finished_at.map isoEncode,
    result := j.result, error := j.error }

/-- The `JobDetail` built by `main.get_job` from a durable row: a
result is attached exactly when `result_rc` is not `NULL`, with
`stdout` and `stats` defaulted. -/
def detailOfDb (dj : DbJob) : JobDetail :=
  { job_id := dj.id, status := dj.status, playbook := dj.playbook,
    created_at := isoEncode dj.created_at,
    started_at := dj.started_at.map isoEncode,
    finished_at := dj.finished_at.map isoEncode,
    result :=
      match dj.result_rc with
      | some rc =>
          some { rc := rc, stdout := dj.result_stdout.getD "",
                 stats := dj.result_stats.getD [] }
      | none => none,
    error := dj.error }

/-- Outcome of `GET /api/v1/jobs/{id}`: a `200` body, a `404`, or a
propagated exception (`500`). -/
inductive ApiResp where
  | ok : JobDetail → ApiResp
  | notFound : ApiResp
  | serverError : ApiResp
deriving DecidableEq, Repr

/-- `main.get_job` (`main.py` lines 372-425): read the ephemeral tier
via `JobStore.get_job`; when that returns a job, answer with it; when
the key is absent, fall back to the durable row; `404` when that is
also absent.  An exception from deserialization propagates. -/
def get_job_endpoint (st : StoreState) (job_id : String) : ApiResp :=
  match JobStore.get_job st.redis job_id with
  | .error _ => .serverError
  | .ok (some j) => .ok (detailOfJob j)
  | .ok none =>
      match repoGet st.db job_id with
      | some dj => .ok (detailOfDb dj)
      | none => .notFound

/-- Modelled from the spec: `JobRepository.list_stale_running_jobs` is
called by `main.recover_stale_jobs` but is absent from the source tree;
§4.C specifies it as the rows with `status = 'running'` whose
`started_at` is older than a threshold (default 1 h). -/
def listStaleRunning (db : List DbJob) (now threshold : Nat) : List DbJob :=
  db.filter (fun j =>
    j.status == "running" &&
      (match j.started_at with
       | some t => decide (t + threshold < now)
       | none => false))

/-- One iteration of the `main.recover_stale_jobs` loop: if the
ephemeral key `job:<id>` is absent, update the durable row to `failed`
with the worker-crash error; otherwise leave the store alone. -/
def recoverStep (redis : RedisState) (d : List DbJob) (j : DbJob) :
    List DbJob :=
  if redisExists redis (jobKey j.id) then d
  else
    (repoUpdateStatus d j.id "failed" none none none none none
      (some "Worker crashed or timed out")).2

/-- `main.recover_stale_jobs` (`main.py` lines 58-69): iterate
`recoverStep` over the stale running rows. -/
def recover_stale_jobs (db : List DbJob) (redis : RedisState)
    (now threshold : Nat) : List DbJob :=
  (listStaleRunning db now threshold).foldl (recoverStep redis) db

/-- The pydantic source union (`schemas.py`): `(type, target)`
discriminated submissions. -/
inductive Source where
  | localPlaybook (path : String)
  | localRole (collection role : String) (role_vars : List (String × String))
  | gitPlaybook (repo branch path : String)
  | gitRole (repo branch role : String) (role_vars : List (String × String))
deriving DecidableEq, Repr

/-- A value of the source-config mapping put on the queue: a string or
a nested mapping (`role_vars`). -/
inductive CfgVal where
  | s : String → CfgVal
  | m : List (String × String) → CfgVal
deriving DecidableEq, Repr

/-- `main._build_source_config` (`main.py` lines 235-269): the
descriptor mapping enqueued for the worker, keyed by the
`(type, target)` pair of the submission. -/
def build_source_config : Source → List (String × CfgVal)
  | .localPlaybook path =>
      [("type", .s "local"), ("target", .s "playbook"), ("path", .s path)]
  | .localRole collection role role_vars =>
      [("type", .s "local"), ("target", .s "role"),
       ("collection", .s collection), ("role", .s role),
       ("role_vars", .m role_vars)]
  | .gitPlaybook repo branch path =>
      [("type", .s "git"), ("target", .s "playbook"), ("repo", .s repo),
       ("branch", .s branch), ("path", .s path)]
  | .gitRole repo branch role role_vars =>
      [("type", .s "git"), ("target", .s "role"), ("repo", .s repo),
       ("branch", .s branch), ("role", .s role), ("role_vars", .m role_vars)]

/-- The branch taken by `worker.execute_job` (`worker.py` lines
148-155) on a dequeued descriptor. -/
inductive Dispatch where
  | localRun
  | gitPlaybookRun
  | gitRoleRun
  | unknown (t : String)
deriving DecidableEq, Repr

/-- The dispatch of `worker.execute_job`: `None` runs the local path;
otherwise the branch is chosen by comparing `source_config["type"]`
against the literals `"playbook"` and `"role"`; any other value raises
`ValueError(f"Unknown source type: ...")`.  A missing or non-string
`type` also raises, which the surrounding handler treats the same way
as the unknown branch. -/
def execute_job_dispatch (sc : Option (List (String × CfgVal))) : Dispatch :=
  match sc with
  | none => .localRun
  | some cfg =>
      match cfg.lookup "type" with
      | some (.s "playbook") => .gitPlaybookRun
      | some (.s "role") => .gitRoleRun
      | some (.s t) => .unknown t
      | _ => .unknown ""

/-- The terminal `(status, error)` pair written by `worker.execute_job`
for a dequeued descriptor: the unknown-type `ValueError` is caught and
recorded as a failure with `str(e)`; on the executed branches the
runner's outcome is abstracted to its exit code `rc` (`successful` iff
`rc = 0`). -/
def execute_job_final (sc : Option (List (String × CfgVal))) (rc : Int) :
    JobStatus × Option String :=
  match execute_job_dispatch sc with
  | .unknown t => (.failed, some ("Unknown source type: " ++ t))
  | _ => (if rc = 0 then .successful else .failed, none)

/-- `GitProvider` record from `git_config.py`. -/
structure GitProvider where
  type : String
  host : String
  orgs : List String
  credential_env : String
deriving DecidableEq, Repr

/-- A parsed repository URL, standing in for `urllib.parse.urlparse`
output: scheme, hostname, optional port, and the path split into
segments (possibly empty strings for repeated slashes). -/
structure Url where
  scheme : String
  host : String
  port : Option Nat := none
  path : List String
deriving DecidableEq, Repr

/-- `git_config._extract_org`: the first non-empty path segment. -/
def extract_org (path : List String) : Option String :=
  (path.filter (fun p => p ≠ "")).head?

/-- `git_config.validate_repo_url`: require `https`, match the host
against a configured provider, and require the first path segment to
be in that provider's allowed organizations. -/
def validate_repo_url (u : Url) (providers : List GitProvider) :
    Except String GitProvider :=
  if u.scheme ≠ "https" then
    .error "Only HTTPS repository URLs are allowed"
  else
    match providers.find? (fun p => p.host = u.host) with
    | none => .error ("Repository not allowed: host " ++ u.host ++ " is not configured")
    | some provider =>
        match extract_org u.path with
        | none => .error "Cannot extract organization from URL path"
        | some org =>
            if org ∈ provider.orgs then .ok provider
            else .error ("Repository not allowed: org " ++ org ++ " is not in allowed list")

/-- A requested playbook path inside the repo; `isAbs` records whether
the submitted string is absolute, in which case `os.path.join` ignores
the repo directory. -/
structure RequestPath where
  isAbs : Bool := false
  segs : List String
deriving DecidableEq, Repr

/-- `os.path.join(repo_dir, path)` on component lists. -/
def pathJoin (base : List String) (p : RequestPath) : List String :=
  if p.isAbs then p.segs else base ++ p.segs

/-- `worker._execute_git_playbook` (`worker.py` lines 53-86): validate
the provider, clone (abstracted to a success flag), join the requested
path onto the clone directory, resolve both symlink-aware through the
caller-supplied `resolve` (standing in for `Path.resolve`), and refuse
to run unless the resolved path stays under the resolved repo
directory (`is_relative_to` is component-list containment).  The `ok`
value is the playbook path handed to `run_playbook`. -/
def execute_git_playbook (resolve : List String → List String)
    (providers : List GitProvider) (repo : Url) (path : RequestPath)
    (repoDir : List String) (cloneOk : Bool) :
    Except String (List String) := do
  let _provider ← validate_repo_url repo providers
  if cloneOk then
    let playbookPath := pathJoin repoDir path
    if resolve repoDir <+: resolve playbookPath then
      .ok playbookPath
    else
      .error "Playbook path resolves outside repo directory"
  else
    .error "Git clone failed"

/-- Render a `Url` back to a string with a replaced userinfo part,
standing in for `urlunparse((scheme, netloc, path, "", "", ""))` with
`netloc = f"{username}@{parsed.hostname}"` plus an optional port. -/
def renderWithUser (username : String) (u : Url) : String :=
  u.scheme ++ "://" ++ username ++ "@" ++ u.host
    ++ (match u.port with
        | some p => ":" ++ toString p
        | none => "")
    ++ (String.join (u.path.map (fun seg => "/" ++ seg)))

/-- `git_service._build_username_url`: embed only a username in the
clone URL — `pat` for Azure providers, `oauth2` for GitLab providers;
any other provider type raises. -/
def build_username_url (u : Url) (provider : GitProvider) :
    Except String String :=
  if provider.type = "azure" then .ok (renderWithUser "pat" u)
  else if provider.type = "gitlab" then .ok (renderWithUser "oauth2" u)
  else .error ("Unknown provider type: " ++ provider.type)

/-- `git_service._subprocess_env`: the child environment is the parent
environment overlaid with the ask-pass pointer, the terminal-prompt
disable, and the private credential carrier.  Overlays are placed in
front so that an association-list lookup sees them first, matching
`{**os.environ, ...}`. -/
def subprocess_env (baseEnv : List (String × String))
    (askpass_path credential : String) : List (String × String) :=
  [("GIT_ASKPASS", askpass_path), ("GIT_TERMINAL_PROMPT", "0"),
   ("_GIT_CREDENTIAL", credential)] ++ baseEnv

/-- The argument vector of the `subprocess.run` call inside
`git_service.clone_repo` (lines 77-84), given the already-built
username URL. -/
def clone_cmd (clone_url target_dir branch : String) : List String :=
  ["git", "clone", "--depth", "1", "--branch", branch, "--single-branch",
   clone_url, target_dir]

/-- `git_service.clone_repo`, up to the child-process invocation: the
credential is read from the provider, the username URL is built, and
the child is invoked with `clone_cmd` and the ask-pass environment.
The `ok` value is the `(argv, env)` pair of the invocation. -/
def clone_repo_invocation (u : Url) (branch target_dir : String)
    (provider : GitProvider) (credential : String)
    (baseEnv : List (String × String)) (askpass_path : String) :
    Except String (List String × List (String × String)) := do
  let clone_url ← build_username_url u provider
  .ok (clone_cmd clone_url target_dir branch,
       subprocess_env baseEnv askpass_path credential)

/-- The argument vector of the `subprocess.run` call inside
`git_service.install_collection` (lines 140-144): the source is
`git+<username-url>,<branch>`. -/
def install_cmd (clone_url branch collections_dir : String) : List String :=
  ["ansible-galaxy", "collection", "install",
   "git+" ++ clone_url ++ "," ++ branch, "-p", collections_dir]

/-- `git_service.install_collection`, up to the child-process
invocation, analogous to `clone_repo_invocation`. -/
def install_collection_invocation (u : Url)
    (branch collections_dir : String) (provider : GitProvider)
    (credential : String) (baseEnv : List (String × String))
    (askpass_path : String) :
    Except String (List String × List (String × String)) := do
  let clone_url ← build_username_url u provider
  .ok (install_cmd clone_url branch collections_dir,
       subprocess_env baseEnv askpass_path credential)

/-- A `galaxy.yml` file found under
`collections_dir/ansible_collections/*/*/`, reduced to the two fields
`resolve_fqcn` reads.  (`namespace` is a Lean keyword, hence `ns`.) -/
structure GalaxyFile where
  ns : String
  name : String
deriving DecidableEq, Repr

/-- `role.count(".")`. -/
def countDots (s : String) : Nat := s.data.count '.'

/-- `git_service.resolve_fqcn` (lines 168-215): a role with at least
two dots is already fully qualified; else the primary collection info
from the install output is used; else the glob of installed
`galaxy.yml` files decides — none installed and more than one
installed are distinct errors, exactly one gives the FQCN from its
`namespace` and `name` fields. -/
def resolve_fqcn (role : String) (galaxy_files : List GalaxyFile)
    (collection_info : Option (String × String)) : Except String String :=
  if 2 ≤ countDots role then .ok role
  else
    match collection_info with
    | some (ns, name) => .ok (ns ++ "." ++ name ++ "." ++ role)
    | none =>
        match galaxy_files with
        | [] => .error "No galaxy.yml found in collections dir"
        | [g] => .ok (g.ns ++ "." ++ g.name ++ "." ++ role)
        | _ => .error "Multiple collections found and no collection_info provided"

/-- A keyword-argument value handed to the queue library's `enqueue`:
either an opaque payload value or a nested mapping (the explicit
`kwargs` envelope). -/
inductive QV (α : Type) where
  | v : α → QV α
  | dict : List (String × α) → QV α

/-- Keyword parameter names the rq queue library consumes for its own
job metadata instead of forwarding to the worker function.  The queue
product is external (spec §1); this list reflects its documented
enqueue contract — in particular `job_id` is reserved, and an explicit
`kwargs` mapping is forwarded verbatim as the function's keyword
arguments. -/
def rqReserved : List String :=
  ["job_id", "job_timeout", "job_result_ttl", "ttl", "failure_ttl",
   "description", "depends_on", "at_front", "meta", "retry",
   "on_success", "on_failure", "args", "kwargs"]

/-- A job record stored on the rq queue: the library's own job id
metadata, and the keyword arguments the worker function will be called
with. -/
structure RqJob (α : Type) where
  metaJobId : Option α
  funcKwargs : List (String × α)

/-- `rq.Queue.enqueue` on keyword arguments: reserved names are
consumed as queue metadata; an explicit `kwargs` mapping supplies the
function's keyword arguments verbatim; otherwise the remaining
non-reserved keyword arguments are forwarded. -/
def rq_enqueue {α : Type} (callKwargs : List (String × QV α)) : RqJob α :=
  { metaJobId :=
      match callKwargs.lookup "job_id" with
      | some (.v a) => some a
      | _ => none
    funcKwargs :=
      match callKwargs.lookup "kwargs" with
      | some (.dict m) => m
      | _ =>
          callKwargs.foldr
            (fun kv acc =>
              if rqReserved.contains kv.1 then acc
              else
                match kv.2 with
                | .v a => (kv.1, a) :: acc
                | .dict _ => acc)
            [] }

/-- `queue.enqueue_job` (`queue.py` lines 14-39): the whole descriptor
is passed as one explicit `kwargs` mapping so that the caller's
`job_id` field cannot collide with the queue library's reserved
`job_id` parameter. -/
def enqueue_job {α : Type}
    (job_id playbook extra_vars inventory source_config options : α) :
    RqJob α :=
  rq_enqueue
    [("kwargs",
      .dict
        [("job_id", job_id), ("playbook", playbook),
         ("extra_vars", extra_vars), ("inventory", inventory),
         ("source_config", source_config), ("options", options)])]

instance {ε α : Type} [DecidableEq ε] [DecidableEq α] :
    DecidableEq (Except ε α) := fun x y =>
  match x, y with
  | .ok a, .ok b =>
      if h : a = b then isTrue (by rw [h])
      else isFalse (fun he => h (Except.ok.inj he))
  | .error a, .error b =>
      if h : a = b then isTrue (by rw [h])
      else isFalse (fun he => h (Except.error.inj he))
  | .ok _, .error _ => isFalse (fun he => Except.noConfusion he)
  | .error _, .ok _ => isFalse (fun he => Except.noConfusion he)

/-- A freshly created pending job, used as a concrete test vector. -/
def pendingJob1 : Job :=
  { job_id := "j1", status := .pending, playbook := "hello.yml",
    extra_vars := [], inventory := "localhost,", created_at := 100 }

/-- A two-tier state holding `pendingJob1` in both tiers, as left by a
successful `create_job`. -/
def twoTierState1 : StoreState :=
  { redis := saveJob [] 86400 pendingJob1,
    db := repoCreate [] "j1" "hello.yml" [] "localhost," 100 }

/-- The empty two-tier state. -/
def emptyStore : StoreState := { redis := [], db := [] }

/-- A durable row stuck in `running` since instant 100. -/
def staleRunningJob : DbJob :=
  { id := "j1", status := "running", playbook := "hello.yml",
    extra_vars := [], inventory := "localhost,", created_at := 50,
    started_at := some 100 }

/-- `staleRunningJob` after startup recovery has marked it failed. -/
def crashRecoveredJob : DbJob :=
  { staleRunningJob with
    status := "failed"
    error := some "Worker crashed or timed out" }

/-- A configured Azure DevOps provider, as in the integration tests. -/
def azureProvider : GitProvider :=
  { type := "azure", host := "dev.azure.com", orgs := ["xxxit"],
    credential_env := "AZURE_PAT" }

/-- A repository URL inside `azureProvider`'s allowed organization. -/
def azureRepoUrl : Url :=
  { scheme := "https", host := "dev.azure.com",
    path := ["xxxit", "p", "_git", "r"] }

/-- The property established by startup recovery for one job id: every
durable row carrying that id is failed with the worker-crash error. -/
def recoveredFailed (id : String) (d : List DbJob) : Prop :=
  ∀ j' ∈ d, j'.id = id →
    j'.status = "failed" ∧ j'.error = some "Worker crashed or timed out"

theorem redisFind_redisSet_self (r : RedisState) (k : String)
    (e : RedisEntry) : redisFind (redisSet r k e) k = some e := by
  induction r with
  | nil => simp [redisSet, redisFind]
  | cons hd tl ih =>
      obtain ⟨k0, e0⟩ := hd
      by_cases h : k0 = k <;> simp [redisSet, redisFind, h, ih]

theorem setField_ne_nil (h : List (String × RVal)) (k : String) (v : RVal) :
    setField h k v ≠ [] := by
  cases h with
  | nil => simp [setField]
  | cons hd tl =>
      obtain ⟨k0, v0⟩ := hd
      by_cases hk : k0 = k <;> simp [setField, hk]

theorem hsetFields_ne_nil (h : List (String × RVal))
    (m : List (String × RVal)) (hne : h ≠ []) : hsetFields h m ≠ [] := by
  induction m generalizing h with
  | nil => simpa [hsetFields]
  | cons hd tl ih =>
      simp only [hsetFields, List.foldl_cons]
      exact ih (setField h hd.1 hd.2) (setField_ne_nil h hd.1 hd.2)

theorem hsetFields_nil_cons_ne (a : String × RVal)
    (m : List (String × RVal)) : hsetFields [] (a :: m) ≠ [] := by
  simp only [hsetFields, List.foldl_cons]
  exact hsetFields_ne_nil (setField [] a.1 a.2) m (setField_ne_nil [] a.1 a.2)

theorem get_job_poisoned (r : RedisState) (id : String)
    (flds : List (String × RVal)) (t : Option Nat)
    (hfind : redisFind r (jobKey id) = some { fields := flds, ttl := t })
    (hne : flds ≠ []) (hd : deserializeJob flds = none) :
    JobStore.get_job r id = .error () := by
  simp [JobStore.get_job, redisHgetall, hfind, hne, hd]

theorem deserializeJob_updateFields (status : JobStatus)
    (sa fa : Option Nat) (res : Option JobResult) (err : Option String) :
    deserializeJob (hsetFields [] (updateFields status sa fa res err))
      = none := by
  cases err with
  | none => cases status <;> cases sa <;> cases fa <;> cases res <;> rfl
  | some e =>
      by_cases he : e = ""
      · subst he
        cases status <;> cases sa <;> cases fa <;> cases res <;> rfl
      · cases status <;> cases sa <;> cases fa <;> cases res <;>
          (simp only [updateFields, if_neg he]; rfl)

theorem markFailed_post (d : List DbJob) (uid : String) :
    recoveredFailed uid
      (repoUpdateStatus d uid "failed" none none none none none
        (some "Worker crashed or timed out")).2 := by
  intro j' hj' hid
  unfold repoUpdateStatus at hj'
  cases hget : repoGet d uid with
  | none =>
      rw [hget] at hj'
      simp only at hj'
      have := List.find?_eq_none.mp hget j' hj'
      simp [hid] at this
  | some x =>
      rw [hget] at hj'
      simp only at hj'
      obtain ⟨x0, hx0, hfx⟩ := List.mem_map.mp hj'
      by_cases hx : x0.id = uid
      · rw [if_pos hx] at hfx
        rw [← hfx]
        simp [dbApplyUpdate]
      · rw [if_neg hx] at hfx
        rw [← hfx] at hid
        exact absurd hid hx

theorem recoverStep_preserves (redis : RedisState) (id : String)
    (d : List DbJob) (j2 : DbJob) (hP : recoveredFailed id d) :
    recoveredFailed id (recoverStep redis d j2) := by
  unfold recoverStep
  by_cases hex : redisExists redis (jobKey j2.id) = true
  · rw [if_pos hex]; exact hP
  · rw [if_neg hex]
    intro j' hj' hid
    unfold repoUpdateStatus at hj'
    cases hget : repoGet d j2.id with
    | none =>
        rw [hget] at hj'
        exact hP j' hj' hid
    | some x =>
        rw [hget] at hj'
        simp only at hj'
        obtain ⟨x0, hx0, hfx⟩ := List.mem_map.mp hj'
        by_cases hx : x0.id = j2.id
        · rw [if_pos hx] at hfx
          rw [← hfx]
          simp [dbApplyUpdate]
        · rw [if_neg hx] at hfx
          rw [← hfx]
          rw [← hfx] at hid
          exact hP x0 hx0 hid

theorem recoverFold_preserves (redis : RedisState) (id : String)
    (l : List DbJob) (d : List DbJob) (hP : recoveredFailed id d) :
    recoveredFailed id (l.foldl (recoverStep redis) d) := by
  induction l generalizing d with
  | nil => simpa using hP
  | cons y ys ih =>
      rw [List.foldl_cons]
      exact ih _ (recoverStep_preserves redis id d y hP)

theorem recoverFold_establishes (redis : RedisState) (l : List DbJob)
    (d : List DbJob) (x : DbJob) (hx : x ∈ l)
    (habs : redisExists redis (jobKey x.id) = false) :
    recoveredFailed x.id (l.foldl (recoverStep redis) d) := by
  induction l generalizing d with
  | nil => cases hx
  | cons y ys ih =>
      rw [List.foldl_cons]
      rcases List.mem_cons.mp hx with hxy | hmem
      · subst hxy
        apply recoverFold_preserves
        have hstep : recoverStep redis d x
            = (repoUpdateStatus d x.id "failed" none none none none none
                (some "Worker crashed or timed out")).2 := by
          simp [recoverStep, habs]
        rw [hstep]
        exact markFailed_post d x.id
      · exact ih (recoverStep redis d y) hmem

theorem cred_not_in_short (cred s : String) (h : s.length < cred.length) :
    ¬ cred.data <:+: s.data := by
  intro hinf
  have h1 : cred.data.length ≤ s.data.length := hinf.length_le
  have h2 : cred.length = cred.data.length := rfl
  have h3 : s.length = s.data.length := rfl
  omega

theorem cred_not_in_lit (cred s : String) (hlen : 15 < cred.length)
    (h : s.length ≤ 15) : ¬ cred.data <:+: s.data :=
  cred_not_in_short cred s (by omega)

/-- C1: the claim states that `update_status` writes the durable tier
first and, when the durable write raises, propagates the error with the
ephemeral record left unchanged.  The source does the opposite:
`job_store.py` line 109 writes the Redis hash before line 113 writes
the repository.  At this concrete failing durable write the durable
rows are untouched while the ephemeral status has already moved from
`pending` to `running` — a status observable in the ephemeral tier that
is not recorded in the durable tier, which the repository's own test
`test_update_status_no_redis_update_on_db_failure` forbids. -/
theorem c1_update_status_ephemeral_written_despite_durable_failure :
    (JobStore.update_status twoTierState1 false "j1" .running (some 200)
        none none none).1 = .error "DB connection failed"
    ∧ getStr (redisHgetall (JobStore.update_status twoTierState1 false "j1"
        .running (some 200) none none none).2.redis (jobKey "j1")) "status"
        = "running"
    ∧ getStr (redisHgetall twoTierState1.redis (jobKey "j1")) "status"
        = "pending"
    ∧ (JobStore.update_status twoTierState1 false "j1" .running (some 200)
        none none none).2.db = twoTierState1.db := by
  decide

/-- C2: the claim states that `create_job` deletes the ephemeral key
`job:<id>` when the durable write raises, so that neither tier contains
the job after a failed create.  The source performs no rollback: at
this concrete failing durable write the error propagates but the
ephemeral key `job:j1` is still present, contradicting the repository's
own test `test_create_job_rollbacks_redis_on_db_failure`.  The second
half of the claim holds: after a successful create both tiers contain
the job. -/
theorem c2_create_job_no_ephemeral_rollback_on_durable_failure :
    (JobStore.create_job emptyStore 86400 false "j1" "hello.yml" []
        "localhost," 100).1 = .error "DB connection failed"
    ∧ redisExists (JobStore.create_job emptyStore 86400 false "j1"
        "hello.yml" [] "localhost," 100).2.redis (jobKey "j1") = true
    ∧ (JobStore.create_job emptyStore 86400 false "j1" "hello.yml" []
        "localhost," 100).2.db = []
    ∧ redisExists (JobStore.create_job emptyStore 86400 true "j1"
        "hello.yml" [] "localhost," 100).2.redis (jobKey "j1") = true
    ∧ (repoGet (JobStore.create_job emptyStore 86400 true "j1" "hello.yml"
        [] "localhost," 100).2.db "j1").isSome = true := by
  decide

/-- C3: the claim states that a descriptor built by intake from a Git
playbook submission (`type = git`, `target = playbook`) makes the
worker resolve the provider, clone, check the path and run the
playbook.  In the source, `main._build_source_config` emits
`type = "git"` with a separate `target` key, while
`worker.execute_job` compares `source_config["type"]` against the
literals `"playbook"` and `"role"`; the descriptor therefore falls
into the unknown branch, and the job is marked failed with
`Unknown source type: git` without any clone or run. -/
theorem c3_intake_git_playbook_descriptor_never_executed :
    execute_job_dispatch (some (build_source_config
        (.gitPlaybook "https://dev.azure.com/xxxit/p/_git/r" "main"
          "deploy/app.yml"))) = .unknown "git"
    ∧ execute_job_final (some (build_source_config
        (.gitPlaybook "https://dev.azure.com/xxxit/p/_git/r" "main"
          "deploy/app.yml"))) 0
      = (.failed, some "Unknown source type: git") := by
  decide

/-- C4: `GET /api/v1/jobs/{id}` answers from the ephemeral tier when
the key is present (and the record deserializes), falls back to the
durable row when the key is absent, and responds 404 exactly when
neither tier holds the id. -/
theorem c4_get_job_two_tier_fallback (st : StoreState) (id : String) :
    (get_job_endpoint st id = .notFound ↔
       redisHgetall st.redis (jobKey id) = [] ∧ repoGet st.db id = none)
    ∧ (∀ j, deserializeJob (redisHgetall st.redis (jobKey id)) = some j →
         redisHgetall st.redis (jobKey id) ≠ [] →
         get_job_endpoint st id = .ok (detailOfJob j))
    ∧ (redisHgetall st.redis (jobKey id) = [] →
         ∀ dj, repoGet st.db id = some dj →
           get_job_endpoint st id = .ok (detailOfDb dj)) := by
  refine ⟨?_, ?_, ?_⟩
  · by_cases h : redisHgetall st.redis (jobKey id) = []
    · cases hr : repoGet st.db id <;>
        simp [get_job_endpoint, JobStore.get_job, h, hr]
    · cases hd : deserializeJob (redisHgetall st.redis (jobKey id)) <;>
        simp [get_job_endpoint, JobStore.get_job, h, hd]
  · intro j hd h
    simp [get_job_endpoint, JobStore.get_job, h, hd]
  · intro h dj hr
    simp [get_job_endpoint, JobStore.get_job, h, hr]

/-- Witness for C4: on a state holding `pendingJob1` in both tiers the
endpoint serves the ephemeral record. -/
theorem c4_get_job_two_tier_fallback_witness :
    deserializeJob (redisHgetall twoTierState1.redis (jobKey "j1"))
      = some pendingJob1
    ∧ get_job_endpoint twoTierState1 "j1" = .ok (detailOfJob pendingJob1) :=
  ⟨by decide,
   (c4_get_job_two_tier_fallback twoTierState1 "j1").2.1 pendingJob1
     (by decide) (by decide)⟩

/-- C5: at startup, every durable job that is `running`, whose
`started_at` is older than the stale threshold, and whose ephemeral key
`job:<id>` is absent, is updated to `failed` with the error
`Worker crashed or timed out`.  (`list_stale_running_jobs` is modelled
from the spec, see `listStaleRunning`.) -/
theorem c5_startup_recovery_marks_stale_running_failed
    (db : List DbJob) (redis : RedisState) (now threshold : Nat)
    (j : DbJob) (t : Nat) (hmem : j ∈ db) (hrun : j.status = "running")
    (hst : j.started_at = some t) (hold : t + threshold < now)
    (habs : redisExists redis (jobKey j.id) = false) :
    ∀ j' ∈ recover_stale_jobs db redis now threshold, j'.id = j.id →
      j'.status = "failed" ∧ j'.error = some "Worker crashed or timed out" := by
  have hstale : j ∈ listStaleRunning db now threshold := by
    rw [listStaleRunning, List.mem_filter]
    refine ⟨hmem, ?_⟩
    rw [hrun, hst]
    simpa using hold
  exact recoverFold_establishes redis _ db j hstale habs

/-- Witness for C5: a 2000-second-stale running job with no ephemeral
key is marked failed by recovery (threshold 3600 s, now 4000). -/
theorem c5_startup_recovery_marks_stale_running_failed_witness :
    crashRecoveredJob ∈ recover_stale_jobs [staleRunningJob] [] 4000 3600
    ∧ crashRecoveredJob.status = "failed"
    ∧ crashRecoveredJob.error = some "Worker crashed or timed out" :=
  ⟨by decide,
   c5_startup_recovery_marks_stale_running_failed [staleRunningJob] []
     4000 3600 staleRunningJob 100 (by decide) (by decide) (by decide)
     (by decide) (by decide) crashRecoveredJob (by decide) (by decide)⟩

/-- C6: after the clone and before the runner is invoked, the join of
the repo directory and the requested path is resolved symlink-aware;
if the resolved path is not under the resolved repo directory the job
fails with the path-escape error and nothing is run, so every playbook
path handed to the runner resolves under the clone directory. -/
theorem c6_clone_path_containment (resolve : List String → List String)
    (providers : List GitProvider) (repo : Url) (path : RequestPath)
    (repoDir : List String) (cloneOk : Bool) :
    (∀ p, execute_git_playbook resolve providers repo path repoDir cloneOk
        = .ok p →
      p = pathJoin repoDir path ∧ resolve repoDir <+: resolve p)
    ∧ (∀ prov, validate_repo_url repo providers = .ok prov →
        cloneOk = true →
        ¬ resolve repoDir <+: resolve (pathJoin repoDir path) →
        execute_git_playbook resolve providers repo path repoDir cloneOk
          = .error "Playbook path resolves outside repo directory") := by
  constructor
  · intro p hp
    unfold execute_git_playbook at hp
    cases hv : validate_repo_url repo providers with
    | error e =>
        rw [hv] at hp
        simp [Bind.bind, Except.bind] at hp
    | ok prov =>
        rw [hv] at hp
        simp only [Bind.bind, Except.bind] at hp
        cases cloneOk with
        | false => simp at hp
        | true =>
            simp only [if_pos rfl] at hp
            by_cases hpre : resolve repoDir <+: resolve (pathJoin repoDir path)
            · rw [if_pos hpre] at hp
              cases hp
              exact ⟨rfl, hpre⟩
            · rw [if_neg hpre] at hp
              cases hp
  · intro prov hv hc hpre
    subst hc
    unfold execute_git_playbook
    rw [hv]
    simp only [Bind.bind, Except.bind, if_neg hpre]
    simp

/-- Witness for C6: with the identity resolver a relative path inside
the clone passes the check and the runner receives a path under the
clone directory. -/
theorem c6_clone_path_containment_witness :
    execute_git_playbook (fun l => l) [azureProvider] azureRepoUrl
        { segs := ["deploy", "app.yml"] } ["tmp", "repo"] true
      = .ok ["tmp", "repo", "deploy", "app.yml"]
    ∧ ["tmp", "repo"] <+: ["tmp", "repo", "deploy", "app.yml"] :=
  ⟨by decide,
   ((c6_clone_path_containment (fun l => l) [azureProvider] azureRepoUrl
       { segs := ["deploy", "app.yml"] } ["tmp", "repo"] true).1
     ["tmp", "repo", "deploy", "app.yml"] (by decide)).2⟩

/-- C7: for the child-process invocations of `clone_repo` and
`install_collection`, the credential occurs in no element of the
argument vector — the clone URL embeds only the provider username
(`pat` / `oauth2`) — while the child environment carries it in
`_GIT_CREDENTIAL`.  The hypotheses state that the credential is a
secret distinct from the public inputs: longer than any fixed literal
of the command line and not a substring of the username URL, branch,
or destination directories. -/
theorem c7_credential_absent_from_argv (u : Url)
    (branch target_dir collections_dir : String)
    (provider : GitProvider) (credential : String)
    (baseEnv : List (String × String)) (askpass : String)
    (hlen : 15 < credential.length)
    (hu1 : ¬ credential.data <:+: (renderWithUser "pat" u).data)
    (hu2 : ¬ credential.data <:+: (renderWithUser "oauth2" u).data)
    (hb : ¬ credential.data <:+: branch.data)
    (ht : ¬ credential.data <:+: target_dir.data)
    (hc : ¬ credential.data <:+: collections_dir.data)
    (hs1 : ¬ credential.data <:+:
        ("git+" ++ renderWithUser "pat" u ++ "," ++ branch).data)
    (hs2 : ¬ credential.data <:+:
        ("git+" ++ renderWithUser "oauth2" u ++ "," ++ branch).data) :
    (∀ cmd env,
      clone_repo_invocation u branch target_dir provider credential baseEnv
          askpass = .ok (cmd, env) →
        (∀ arg ∈ cmd, ¬ credential.data <:+: arg.data)
        ∧ env.lookup "_GIT_CREDENTIAL" = some credential)
    ∧ (∀ cmd env,
      install_collection_invocation u branch collections_dir provider
          credential baseEnv askpass = .ok (cmd, env) →
        (∀ arg ∈ cmd, ¬ credential.data <:+: arg.data)
        ∧ env.lookup "_GIT_CREDENTIAL" = some credential) := by
  constructor
  · intro cmd env hok
    unfold clone_repo_invocation build_username_url at hok
    by_cases hA : provider.type = "azure"
    · rw [if_pos hA] at hok
      simp only [Bind.bind, Except.bind, Except.ok.injEq, Prod.mk.injEq]
        at hok
      obtain ⟨hcmd, henv⟩ := hok
      subst hcmd; subst henv
      refine ⟨?_, rfl⟩
      intro arg harg
      simp only [clone_cmd, List.mem_cons, List.not_mem_nil, or_false]
        at harg
      rcases harg with rfl | rfl | rfl | rfl | rfl | rfl | rfl | rfl | rfl
      all_goals first
        | exact hb
        | exact ht
        | exact hu1
        | exact cred_not_in_lit credential _ hlen (by decide)
    · by_cases hG : provider.type = "gitlab"
      · rw [if_neg hA, if_pos hG] at hok
        simp only [Bind.bind, Except.bind, Except.ok.injEq, Prod.mk.injEq]
          at hok
        obtain ⟨hcmd, henv⟩ := hok
        subst hcmd; subst henv
        refine ⟨?_, rfl⟩
        intro arg harg
        simp only [clone_cmd, List.mem_cons, List.not_mem_nil, or_false]
          at harg
        rcases harg with rfl | rfl | rfl | rfl | rfl | rfl | rfl | rfl | rfl
        all_goals first
          | exact hb
          | exact ht
          | exact hu2
          | exact cred_not_in_lit credential _ hlen (by decide)
      · rw [if_neg hA, if_neg hG] at hok
        simp [Bind.bind, Except.bind] at hok
  · intro cmd env hok
    unfold install_collection_invocation build_username_url at hok
    by_cases hA : provider.type = "azure"
    · rw [if_pos hA] at hok
      simp only [Bind.bind, Except.bind, Except.ok.injEq, Prod.mk.injEq]
        at hok
      obtain ⟨hcmd, henv⟩ := hok
      subst hcmd; subst henv
      refine ⟨?_, rfl⟩
      intro arg harg
      simp only [install_cmd, List.mem_cons, List.not_mem_nil, or_false]
        at harg
      rcases harg with rfl | rfl | rfl | rfl | rfl | rfl
      all_goals first
        | exact hc
        | exact hs1
        | exact cred_not_in_lit credential _ hlen (by decide)
    · by_cases hG : provider.type = "gitlab"
      · rw [if_neg hA, if_pos hG] at hok
        simp only [Bind.bind, Except.bind, Except.ok.injEq, Prod.mk.injEq]
          at hok
        obtain ⟨hcmd, henv⟩ := hok
        subst hcmd; subst henv
        refine ⟨?_, rfl⟩
        intro arg harg
        simp only [install_cmd, List.mem_cons, List.not_mem_nil, or_false]
          at harg
        rcases harg with rfl | rfl | rfl | rfl | rfl | rfl
        all_goals first
          | exact hc
          | exact hs2
          | exact cred_not_in_lit credential _ hlen (by decide)
      · rw [if_neg hA, if_neg hG] at hok
        simp [Bind.bind, Except.bind] at hok

/-- Witness for C7: a concrete 23-character credential is not a
substring of the username URL placed on the command line, and the
child environment carries it in `_GIT_CREDENTIAL`. -/
theorem c7_credential_absent_from_argv_witness :
    (¬ ("SECRET-TOKEN-1234567890" : String).data <:+:
        (renderWithUser "pat" azureRepoUrl).data)
    ∧ (subprocess_env [] "/tmp/ask/askpass.sh"
        "SECRET-TOKEN-1234567890").lookup "_GIT_CREDENTIAL"
      = some "SECRET-TOKEN-1234567890" := by
  have hok : clone_repo_invocation azureRepoUrl "main" "/tmp/x/repo"
      azureProvider "SECRET-TOKEN-1234567890" [] "/tmp/ask/askpass.sh"
      = .ok (clone_cmd (renderWithUser "pat" azureRepoUrl) "/tmp/x/repo"
               "main",
             subprocess_env [] "/tmp/ask/askpass.sh"
               "SECRET-TOKEN-1234567890") := by
    decide
  have h := (c7_credential_absent_from_argv azureRepoUrl "main"
    "/tmp/x/repo" "/tmp/x/col" azureProvider "SECRET-TOKEN-1234567890" []
    "/tmp/ask/askpass.sh" (by decide) (by decide) (by decide) (by decide)
    (by decide) (by decide) (by decide) (by decide)).1 _ _ hok
  exact ⟨h.1 (renderWithUser "pat" azureRepoUrl) (by decide), h.2⟩

/-- C8: an enqueued descriptor reaches the dequeued side with the same
values under the same keys; in particular the caller's field literally
named `job_id` survives, because the adapter wraps the payload in an
explicit `kwargs` mapping and the queue library's own reserved `job_id`
metadata stays empty. -/
theorem c8_queue_descriptor_roundtrip {α : Type} (x p v i s o : α) :
    (enqueue_job x p v i s o).funcKwargs
      = [("job_id", x), ("playbook", p), ("extra_vars", v),
         ("inventory", i), ("source_config", s), ("options", o)]
    ∧ (enqueue_job x p v i s o).metaJobId = none
    ∧ (enqueue_job x p v i s o).funcKwargs.lookup "job_id" = some x
    ∧ (enqueue_job x p v i s o).funcKwargs.lookup "playbook" = some p
    ∧ (enqueue_job x p v i s o).funcKwargs.lookup "extra_vars" = some v
    ∧ (enqueue_job x p v i s o).funcKwargs.lookup "inventory" = some i
    ∧ (enqueue_job x p v i s o).funcKwargs.lookup "source_config" = some s
    ∧ (enqueue_job x p v i s o).funcKwargs.lookup "options" = some o := by
  refine ⟨rfl, rfl, ?_, ?_, ?_, ?_, ?_, ?_⟩ <;> rfl

/-- Witness for C8 at concrete payload values. -/
theorem c8_queue_descriptor_roundtrip_witness :
    (enqueue_job 1 2 3 4 5 6).funcKwargs.lookup "job_id" = some 1 :=
  (c8_queue_descriptor_roundtrip 1 2 3 4 5 6).2.2.1

/-- C9: `resolve_fqcn` returns the role verbatim when it has at least
two dots; otherwise prefixes the known primary collection; otherwise
decides by the installed `galaxy.yml` files — exactly one gives the
FQCN from its namespace and name, none is the no-collection error, and
more than one is the ambiguity error. -/
theorem c9_resolve_fqcn_resolution (role : String) (gs : List GalaxyFile)
    (ci : Option (String × String)) :
    (2 ≤ countDots role → resolve_fqcn role gs ci = .ok role)
    ∧ (countDots role < 2 → ∀ ns name, ci = some (ns, name) →
        resolve_fqcn role gs ci = .ok (ns ++ "." ++ name ++ "." ++ role))
    ∧ (countDots role < 2 → ci = none → gs = [] →
        resolve_fqcn role gs ci
          = .error "No galaxy.yml found in collections dir")
    ∧ (countDots role < 2 → ci = none → ∀ g, gs = [g] →
        resolve_fqcn role gs ci
          = .ok (g.ns ++ "." ++ g.name ++ "." ++ role))
    ∧ (countDots role < 2 → ci = none → 2 ≤ gs.length →
        resolve_fqcn role gs ci
          = .error "Multiple collections found and no collection_info provided") := by
  refine ⟨?_, ?_, ?_, ?_, ?_⟩
  · intro h; simp [resolve_fqcn, h]
  · intro h ns name hci
    subst hci
    simp [resolve_fqcn, Nat.not_le.mpr h]
  · intro h hci hgs
    subst hci; subst hgs
    simp [resolve_fqcn, Nat.not_le.mpr h]
  · intro h hci g hgs
    subst hci; subst hgs
    simp [resolve_fqcn, Nat.not_le.mpr h]
  · intro h hci hlen
    subst hci
    cases gs with
    | nil => simp at hlen
    | cons a as =>
        cases as with
        | nil => simp at hlen
        | cons b bs => simp [resolve_fqcn, Nat.not_le.mpr h]

/-- Witness for C9: a short role name resolved through a single
installed collection's galaxy metadata, as in spec scenario S5. -/
theorem c9_resolve_fqcn_resolution_witness :
    countDots "nginx" < 2
    ∧ resolve_fqcn "nginx" [{ ns := "mycompany", name := "infra" }] none
      = .ok "mycompany.infra.nginx" :=
  ⟨by decide,
   (c9_resolve_fqcn_resolution "nginx"
       [{ ns := "mycompany", name := "infra" }] none).2.2.2.1
     (by decide) rfl { ns := "mycompany", name := "infra" } rfl⟩

/-- C10: calling `update_status` for an id whose ephemeral key is
absent creates a fresh hash holding only the updated fields and
carrying no TTL; a subsequent `get_job` then finds the non-empty hash
and raises during deserialization (the `extra_vars` and `created_at`
fields are missing, so their parses fail) instead of returning the
job, returning nil, or falling through to the durable tier. -/
theorem c10_update_after_expiry_poisons_ephemeral (st : StoreState)
    (dbOk : Bool) (job_id : String) (status : JobStatus)
    (started_at finished_at : Option Nat) (result : Option JobResult)
    (error : Option String)
    (habs : redisFind st.redis (jobKey job_id) = none) :
    redisFind
      (JobStore.update_status st dbOk job_id status started_at finished_at
        result error).2.redis (jobKey job_id)
      = some { fields := hsetFields []
                 (updateFields status started_at finished_at result error),
               ttl := none }
    ∧ JobStore.get_job
        (JobStore.update_status st dbOk job_id status started_at finished_at
          result error).2.redis job_id = .error () := by
  have h1 : (JobStore.update_status st dbOk job_id status started_at
      finished_at result error).2.redis
      = redisSet st.redis (jobKey job_id)
          { fields := hsetFields []
              (updateFields status started_at finished_at result error),
            ttl := none } := by
    cases dbOk <;> simp [JobStore.update_status, redisHset, habs]
  have hne : hsetFields []
      (updateFields status started_at finished_at result error) ≠ [] := by
    obtain ⟨tl, htl⟩ : ∃ tl,
        updateFields status started_at finished_at result error
          = ("status", RVal.str status.value) :: tl := ⟨_, rfl⟩
    rw [htl]
    exact hsetFields_nil_cons_ne _ tl
  refine ⟨?_, ?_⟩
  · rw [h1, redisFind_redisSet_self]
  · exact get_job_poisoned _ _ _ _ (by rw [h1, redisFind_redisSet_self]) hne
      (deserializeJob_updateFields status started_at finished_at result
        error)

/-- Witness for C10: updating an id absent from an empty ephemeral
tier creates the TTL-less partial hash and `get_job` then raises. -/
theorem c10_update_after_expiry_poisons_ephemeral_witness :
    redisFind
      (JobStore.update_status emptyStore true "j9" .running (some 5)
        none none none).2.redis (jobKey "j9")
      = some { fields := hsetFields []
                 (updateFields .running (some 5) none none none),
               ttl := none }
    ∧ JobStore.get_job
        (JobStore.update_status emptyStore true "j9" .running (some 5)
          none none none).2.redis "j9" = .error () :=
  c10_update_after_expiry_poisons_ephemeral emptyStore true "j9" .running
    (some 5) none none none (by decide)
